import Mathlib

/-!
Verification of the ADW test-and-repair workflow (`adws/adw_test.py`) and the
worktree / port-allocation module (`adws/worktree_ops.py`).

The external collaborators (agent executor, JSON parser, issue-comment sink)
are modelled as function parameters; side effects are threaded as explicit
state and counters.  The verifier is a function from the call index to the
agent response, and the remediator is a function from the (iteration, index)
pair of a resolution attempt to its success flag, so that any behaviour of the
external collaborators is covered.
-/

namespace Adws

/-- A single structured test outcome, as parsed from the verifier's output
(`TestResult` in `data_types`): a name, a pass/fail flag and an opaque
failure detail. -/
structure TestResult where
  test_name : String
  passed : Bool
  error : Option String
deriving DecidableEq, Repr

/-- Response of the agent executor (`AgentPromptResponse`): overall success
flag of the execution itself plus raw output text. -/
structure AgentPromptResponse where
  success : Bool
  output : String
deriving DecidableEq, Repr

/-- `parse_test_results` from `adw_test.py`: parse the raw output into a list
of results and return `(results, passed_count, failed_count)`; any parse
failure degrades to `([], 0, 0)`.  The structured-result parser `parse_json`
is an external collaborator, passed in as `parse`. -/
def parse_test_results (parse : String → Option (List TestResult))
    (output : String) : List TestResult × Nat × Nat :=
  match parse output with
  | some results =>
      let passed_count := (results.filter (fun t => t.passed)).length
      (results, passed_count, results.length - passed_count)
  | none => ([], 0, 0)

/-- Inner loop of `resolve_failed_tests`: walk the failing outcomes in order,
invoking the remediator once per item, accumulating resolved / unresolved
counts.  The remediator's verdict for item `idx` of iteration `it` is
`remediator it idx`. -/
def resolveGo {α : Type} (remediator : Nat → Nat → Bool) (iteration : Nat) :
    List α → Nat → Nat → Nat → Nat × Nat
  | [], _, resolved, unresolved => (resolved, unresolved)
  | _ :: rest, idx, resolved, unresolved =>
      if remediator iteration idx then
        resolveGo remediator iteration rest (idx + 1) (resolved + 1) unresolved
      else
        resolveGo remediator iteration rest (idx + 1) resolved (unresolved + 1)

/-- `resolve_failed_tests` from `adw_test.py` (and its E2E twin, which has the
same control structure): returns `(resolved_count, unresolved_count)`. -/
def resolve_failed_tests {α : Type} (remediator : Nat → Nat → Bool)
    (iteration : Nat) (failed_tests : List α) : Nat × Nat :=
  resolveGo remediator iteration failed_tests 0 0 0

/-- Which branch of the loop produced the returned counts: the `break` after
a verifier infrastructure failure (`aborted`), the `break` on zero failures
(`converged`), the `break` on the attempt ceiling or on a remediation pass
that resolved nothing (`exhausted`), or the E2E-only `break` on an empty
result list (`noResults`). -/
inductive LoopStatus where
  | aborted
  | converged
  | exhausted
  | noResults
deriving DecidableEq, Repr

/-- Return value of `run_tests_with_resolution`, instrumented with the exit
branch and with counters of verifier and remediator invocations. -/
structure LoopResult where
  results : List TestResult
  passed_count : Nat
  failed_count : Nat
  test_response : Option AgentPromptResponse
  status : LoopStatus
  verifier_calls : Nat
  remediator_calls : Nat
deriving DecidableEq, Repr

/-- The `while attempt < max_attempts` loop of `run_tests_with_resolution`,
with `fuel = max_attempts - attempt` making the recursion structural.
Arguments after `fuel`: current attempt, last results / passed / failed /
response, verifier-call and remediator-call counters. -/
def runTestsGo (verifier : Nat → AgentPromptResponse)
    (parse : String → Option (List TestResult))
    (remediator : Nat → Nat → Bool) (max_attempts : Nat) :
    Nat → Nat → List TestResult → Nat → Nat → Option AgentPromptResponse →
    Nat → Nat → LoopResult
  | 0, _, results0, passed0, failed0, resp0, v, r =>
      ⟨results0, passed0, failed0, resp0, LoopStatus.exhausted, v, r⟩
  | fuel + 1, attempt, results0, passed0, failed0, _, v, r =>
      let a := attempt + 1
      let resp := verifier v
      let v1 := v + 1
      if resp.success = false then
        ⟨results0, passed0, failed0, some resp, LoopStatus.aborted, v1, r⟩
      else
        let pr := parse_test_results parse resp.output
        let results := pr.fst
        let passed := pr.snd.fst
        let failed := pr.snd.snd
        if failed = 0 then
          ⟨results, passed, failed, some resp, LoopStatus.converged, v1, r⟩
        else if a = max_attempts then
          ⟨results, passed, failed, some resp, LoopStatus.exhausted, v1, r⟩
        else
          let failedTests := results.filter (fun t => !t.passed)
          let rr := resolve_failed_tests remediator a failedTests
          let r1 := r + failedTests.length
          if rr.fst > 0 then
            runTestsGo verifier parse remediator max_attempts fuel a results
              passed failed (some resp) v1 r1
          else
            ⟨results, passed, failed, some resp, LoopStatus.exhausted, v1, r1⟩

/-- `run_tests_with_resolution` from `adw_test.py`: run the verifier up to
`max_attempts` times, attempting remediation of the failing outcomes between
attempts, and return the last results together with the pass / fail counts
and the last verifier response. -/
def run_tests_with_resolution (verifier : Nat → AgentPromptResponse)
    (parse : String → Option (List TestResult))
    (remediator : Nat → Nat → Bool) (max_attempts : Nat) : LoopResult :=
  runTestsGo verifier parse remediator max_attempts max_attempts 0 [] 0 0 none 0 0

/-- `MAX_TEST_RETRY_ATTEMPTS` from `adw_test.py`. -/
def MAX_TEST_RETRY_ATTEMPTS : Nat := 4

/-- `MAX_E2E_TEST_RETRY_ATTEMPTS` from `adw_test.py`. -/
def MAX_E2E_TEST_RETRY_ATTEMPTS : Nat := 2

/-- An E2E test outcome (`E2ETestResult` in `data_types`): name, status
string, path, screenshots and an optional error message. -/
structure E2ETestResult where
  test_name : String
  status : String
  test_path : String
  screenshots : List String
  error : Option String
deriving DecidableEq, Repr

/-- Modelled from the spec: `data_types.py` is not part of the sources; the
spec describes each test outcome as carrying a pass/fail boolean, and
`adw_test.py` builds E2E results whose `status` is the string `"passed"` or
`"failed"`, so an E2E outcome is a pass exactly when its status is
`"passed"`. -/
def E2ETestResult.passed (t : E2ETestResult) : Bool :=
  t.status == "passed"

/-- The dictionary parsed from the E2E verifier's output in `run_e2e_tests`;
each field is optional, the code supplies defaults via `.get`. -/
structure E2EDict where
  test_name : Option String
  status : Option String
  test_path : Option String
  screenshots : Option (List String)
  error : Option String
deriving DecidableEq, Repr

/-- `run_e2e_tests` from `adw_test.py`, at verifier-call counter `v`:
if no E2E test files exist, return no results without calling the verifier;
otherwise invoke the verifier once.  An execution error is converted into a
single synthetic failed result carrying the raw error; a parse failure is
converted into a single synthetic failed result as well; otherwise the parsed
dictionary with its defaults yields the single result.  Returns the results
and the updated verifier-call counter. -/
def run_e2e_tests (hasFiles : Bool) (verifier : Nat → AgentPromptResponse)
    (eparse : String → Option E2EDict) (v : Nat) :
    List E2ETestResult × Nat :=
  if hasFiles = false then ([], v)
  else
    let resp := verifier v
    let v1 := v + 1
    if resp.success = false then
      ([⟨"e2e_suite", "failed", "e2e/", [],
         some ("Test execution error: " ++ resp.output)⟩], v1)
    else
      match eparse resp.output with
      | some d =>
          ([⟨d.test_name.getD "e2e_suite", d.status.getD "failed",
             d.test_path.getD "e2e/", d.screenshots.getD [], d.error⟩], v1)
      | none =>
          ([⟨"e2e_suite", "failed", "e2e/", [],
             some "Result parsing error"⟩], v1)

/-- Return value of `run_e2e_tests_with_resolution`, instrumented like
`LoopResult`. -/
structure E2ELoopResult where
  results : List E2ETestResult
  passed_count : Nat
  failed_count : Nat
  status : LoopStatus
  verifier_calls : Nat
  remediator_calls : Nat
deriving DecidableEq, Repr

/-- The `while attempt < max_attempts` loop of
`run_e2e_tests_with_resolution`, with fuel making the recursion
structural. -/
def runE2EGo (hasFiles : Bool) (verifier : Nat → AgentPromptResponse)
    (eparse : String → Option E2EDict) (remediator : Nat → Nat → Bool)
    (max_attempts : Nat) :
    Nat → Nat → List E2ETestResult → Nat → Nat → Nat → Nat → E2ELoopResult
  | 0, _, results0, passed0, failed0, v, r =>
      ⟨results0, passed0, failed0, LoopStatus.exhausted, v, r⟩
  | fuel + 1, attempt, _, passed0, failed0, v, r =>
      let a := attempt + 1
      let rv := run_e2e_tests hasFiles verifier eparse v
      let results := rv.fst
      let v1 := rv.snd
      if results.isEmpty then
        ⟨results, passed0, failed0, LoopStatus.noResults, v1, r⟩
      else
        let passed := (results.filter (fun t => t.passed)).length
        let failed := results.length - passed
        if failed = 0 then
          ⟨results, passed, failed, LoopStatus.converged, v1, r⟩
        else if a = max_attempts then
          ⟨results, passed, failed, LoopStatus.exhausted, v1, r⟩
        else
          let failedTests := results.filter (fun t => !t.passed)
          let rr := resolve_failed_tests remediator a failedTests
          let r1 := r + failedTests.length
          if rr.fst > 0 then
            runE2EGo hasFiles verifier eparse remediator max_attempts fuel a
              results passed failed v1 r1
          else
            ⟨results, passed, failed, LoopStatus.exhausted, v1, r1⟩

/-- `run_e2e_tests_with_resolution` from `adw_test.py`. -/
def run_e2e_tests_with_resolution (hasFiles : Bool)
    (verifier : Nat → AgentPromptResponse)
    (eparse : String → Option E2EDict) (remediator : Nat → Nat → Bool)
    (max_attempts : Nat) : E2ELoopResult :=
  runE2EGo hasFiles verifier eparse remediator max_attempts max_attempts 0 [] 0 0 0 0

/-- Outcome of the test phase of `main` in `adw_test.py`: the primary-tier
loop result, the E2E-tier loop result when the E2E tier ran (`none` when it
was skipped), and the process exit code. -/
structure MainOutcome where
  primary : LoopResult
  e2e : Option E2ELoopResult
  exit_code : Nat
deriving DecidableEq, Repr

/-- Number of E2E verifier calls of a whole run (zero when the E2E tier was
skipped). -/
def MainOutcome.e2eVerifierCalls (o : MainOutcome) : Nat :=
  match o.e2e with
  | none => 0
  | some x => x.verifier_calls

/-- Number of E2E remediator calls of a whole run (zero when the E2E tier was
skipped). -/
def MainOutcome.e2eRemediatorCalls (o : MainOutcome) : Nat :=
  match o.e2e with
  | none => 0
  | some x => x.remediator_calls

/-- The test phase of `main` in `adw_test.py`: run the primary tier with
ceiling `MAX_TEST_RETRY_ATTEMPTS`; skip the E2E tier if the primary tier
ended with failures, or if `--skip-e2e` was given; otherwise run the E2E tier
with ceiling `MAX_E2E_TEST_RETRY_ATTEMPTS`.  The exit code is 1 when the
total failure count is positive, else 0. -/
def main_test_phase (pverifier : Nat → AgentPromptResponse)
    (pparse : String → Option (List TestResult))
    (premediator : Nat → Nat → Bool)
    (hasFiles : Bool) (everifier : Nat → AgentPromptResponse)
    (eparse : String → Option E2EDict) (eremediator : Nat → Nat → Bool)
    (skip_e2e : Bool) : MainOutcome :=
  let primary := run_tests_with_resolution pverifier pparse premediator
    MAX_TEST_RETRY_ATTEMPTS
  let e2e : Option E2ELoopResult :=
    if primary.failed_count > 0 then none
    else if skip_e2e then none
    else some (run_e2e_tests_with_resolution hasFiles everifier eparse
      eremediator MAX_E2E_TEST_RETRY_ATTEMPTS)
  let e2e_failed : Nat :=
    match e2e with
    | none => 0
    | some x => x.failed_count
  let exit_code := if primary.failed_count + e2e_failed > 0 then 1 else 0
  ⟨primary, e2e, exit_code⟩

/-- `BACKEND_PORT_START` from `worktree_ops.py`. -/
def BACKEND_PORT_START : Nat := 3100

/-- `FRONTEND_PORT_START` from `worktree_ops.py`. -/
def FRONTEND_PORT_START : Nat := 3200

/-- `MAX_CONCURRENT_WORKFLOWS` from `worktree_ops.py`. -/
def MAX_CONCURRENT_WORKFLOWS : Nat := 15

/-- `PortAllocation` from `worktree_ops.py`. -/
structure PortAllocation where
  backend : Nat
  frontend : Nat
deriving DecidableEq, Repr

/-- Is `c` one of the base-16 digits accepted by Python's `int(s, 16)`
(ASCII digits and letters of either case)? -/
def isHexDigit (c : Char) : Bool :=
  (decide ('0' ≤ c) && decide (c ≤ '9')) ||
  (decide ('a' ≤ c) && decide (c ≤ 'f')) ||
  (decide ('A' ≤ c) && decide (c ≤ 'F'))

/-- Value of a base-16 digit. -/
def hexDigitVal (c : Char) : Nat :=
  if decide ('0' ≤ c) && decide (c ≤ '9') then c.toNat - '0'.toNat
  else if decide ('a' ≤ c) && decide (c ≤ 'f') then c.toNat - 'a'.toNat + 10
  else c.toNat - 'A'.toNat + 10

/-- ASCII whitespace stripped by Python's `int` before parsing. -/
def isPySpace (c : Char) : Bool :=
  c == ' ' || c == '\t' || c == '\n' || c == '\r' || c == '\x0b' || c == '\x0c'

/-- Base-16 digits after the first one: single underscores are allowed
between digits, nowhere else. -/
def hexRest : List Char → Nat → Option Nat
  | [], acc => some acc
  | '_' :: c :: rest, acc =>
      if isHexDigit c then hexRest rest (acc * 16 + hexDigitVal c) else none
  | ['_'], _ => none
  | c :: rest, acc =>
      if isHexDigit c then hexRest rest (acc * 16 + hexDigitVal c) else none

/-- The digit body of a base-16 literal; directly after a `0x` prefix a
single leading underscore is also allowed. -/
def hexBody : Bool → List Char → Option Nat
  | true, '_' :: c :: rest =>
      if isHexDigit c then hexRest rest (hexDigitVal c) else none
  | _, '_' :: _ => none
  | _, c :: rest =>
      if isHexDigit c then hexRest rest (hexDigitVal c) else none
  | _, [] => none

/-- Magnitude part of a base-16 literal: optional `0x` / `0X`, then
digits. -/
def pyHexMagnitude : List Char → Option Nat
  | '0' :: 'x' :: rest => hexBody true rest
  | '0' :: 'X' :: rest => hexBody true rest
  | cs => hexBody false cs

/-- Python's `int(s, 16)` (ASCII fragment): strip surrounding whitespace,
an optional sign, an optional `0x` / `0X`, base-16 digits with single
underscores between digits; `none` when the string is not a valid base-16
literal (Python raises `ValueError`). -/
def int_base16 (s : String) : Option Int :=
  let cs := s.toList
  let cs1 := cs.dropWhile isPySpace
  let cs2 := (cs1.reverse.dropWhile isPySpace).reverse
  match cs2 with
  | '+' :: rest => (pyHexMagnitude rest).map (fun n => (n : Int))
  | '-' :: rest => (pyHexMagnitude rest).map (fun n => -(n : Int))
  | rest => (pyHexMagnitude rest).map (fun n => (n : Int))

/-- The string `adw_id[:4] if len(adw_id) >= 4 else adw_id.ljust(4, '0')`
in `allocate_ports`. -/
def hexPart (adw_id : String) : String :=
  if adw_id.length ≥ 4 then (adw_id.toList.take 4).asString
  else (adw_id.toList ++ List.replicate (4 - adw_id.length) '0').asString

/-- `allocate_ports` from `worktree_ops.py`: interpret the first four
characters (right-padded with `'0'`) as base 16, reduce modulo
`MAX_CONCURRENT_WORKFLOWS` (Python's `%` on a positive modulus agrees with
`Int.emod`), and offset both port bases; `none` when the prefix is not a
base-16 string (Python propagates `ValueError`). -/
def allocate_ports (adw_id : String) : Option PortAllocation :=
  match int_base16 (hexPart adw_id) with
  | none => none
  | some v =>
      let offset := (v % (MAX_CONCURRENT_WORKFLOWS : Int)).toNat
      some ⟨BACKEND_PORT_START + offset, FRONTEND_PORT_START + offset⟩

/-- Worktree path `trees/{adw_id}` from `get_worktree_path`. -/
def worktreePath (adw_id : String) : String :=
  "trees/" ++ adw_id

/-- Filesystem / side-effect state threaded through `create_worktree`:
the set of identifiers whose worktree path exists, and invocation counters
for each side effect (`git worktree add`, `.env.local` copy, `.ports.env`
write, `npm install`). -/
structure WorktreeState where
  present : List String
  addCount : Nat
  envCopyCount : Nat
  portWriteCount : Nat
  installCount : Nat
deriving DecidableEq, Repr

/-- `create_worktree` from `worktree_ops.py`, with the version-control and
package-install collaborators modelled by the success flags `vcsOk` and
`npmOk`, and `envExists` telling whether `.env.local` exists.  If the
worktree path is already present, return it with a freshly recomputed port
allocation and no state change; otherwise run `git worktree add` (fatal on
failure), allocate ports, copy the environment file if present, write the
port file, and run `npm install` (fatal on failure).  Errors are returned as
`Except.error` with the state mutated so far. -/
def create_worktree (vcsOk npmOk envExists : Bool) (adw_id branch : String)
    (s : WorktreeState) :
    WorktreeState × Except String (String × PortAllocation) :=
  if adw_id ∈ s.present then
    match allocate_ports adw_id with
    | some ports => (s, Except.ok (worktreePath adw_id, ports))
    | none => (s, Except.error "invalid literal for int() with base 16")
  else
    if vcsOk = false then
      (s, Except.error ("git worktree add failed for " ++ branch))
    else
      let s1 : WorktreeState :=
        { s with present := adw_id :: s.present, addCount := s.addCount + 1 }
      match allocate_ports adw_id with
      | none => (s1, Except.error "invalid literal for int() with base 16")
      | some ports =>
          let s2 : WorktreeState :=
            { s1 with envCopyCount :=
                s1.envCopyCount + (if envExists then 1 else 0) }
          let s3 : WorktreeState :=
            { s2 with portWriteCount := s2.portWriteCount + 1 }
          let s4 : WorktreeState :=
            { s3 with installCount := s3.installCount + 1 }
          if npmOk = false then (s4, Except.error "npm install failed")
          else (s4, Except.ok (worktreePath adw_id, ports))

/-- One directory entry under `trees/` as seen by
`cleanup_stale_worktrees`: its name (the ADW identifier), whether it is a
directory, and its age in seconds (now minus modification time). -/
structure WtEntry where
  adw_id : String
  isDir : Bool
  ageSeconds : Nat
deriving DecidableEq, Repr

/-- The sweep loop of `cleanup_stale_worktrees`: `removeOk id` tells whether
removing worktree `id` succeeds (a failure raises `CalledProcessError`,
which is caught and logged).  Accumulates the count of successful removals
and, as instrumentation, the list of identifiers whose removal was
attempted. -/
def cleanupSweep (removeOk : String → Bool) (maxAgeSeconds : Nat) :
    List WtEntry → Nat → List String → Nat × List String
  | [], cleaned, attempted => (cleaned, attempted)
  | e :: rest, cleaned, attempted =>
      if e.isDir = false then
        cleanupSweep removeOk maxAgeSeconds rest cleaned attempted
      else if e.ageSeconds > maxAgeSeconds then
        if removeOk e.adw_id then
          cleanupSweep removeOk maxAgeSeconds rest (cleaned + 1)
            (attempted ++ [e.adw_id])
        else
          cleanupSweep removeOk maxAgeSeconds rest cleaned
            (attempted ++ [e.adw_id])
      else
        cleanupSweep removeOk maxAgeSeconds rest cleaned attempted

/-- `cleanup_stale_worktrees` from `worktree_ops.py`: number of worktrees
successfully removed among the entries of `trees/` older than
`max_age_hours * 3600` seconds. -/
def cleanup_stale_worktrees (removeOk : String → Bool) (max_age_hours : Nat)
    (entries : List WtEntry) : Nat :=
  (cleanupSweep removeOk (max_age_hours * 3600) entries 0 []).fst

/-- The identifiers whose removal `cleanup_stale_worktrees` attempts, in
sweep order. -/
def cleanupAttempted (removeOk : String → Bool) (max_age_hours : Nat)
    (entries : List WtEntry) : List String :=
  (cleanupSweep removeOk (max_age_hours * 3600) entries 0 []).snd

/-- Shared helper: when the first verifier call succeeds and parses to zero
failures, the loop converges after exactly one verifier call. -/
theorem firstAttemptConverges (N : Nat)
    (verifier : Nat → AgentPromptResponse)
    (parse : String → Option (List TestResult))
    (remediator : Nat → Nat → Bool) (res : List TestResult) (p : Nat)
    (hN : 1 ≤ N)
    (hsuccess : (verifier 0).success = true)
    (hparse : parse_test_results parse (verifier 0).output = (res, p, 0)) :
    run_tests_with_resolution verifier parse remediator N =
      ⟨res, p, 0, some (verifier 0), LoopStatus.converged, 1, 0⟩ := by
  obtain ⟨m, rfl⟩ : ∃ m, N = m + 1 := ⟨N - 1, by omega⟩
  simp [run_tests_with_resolution, runTestsGo, hsuccess, hparse]

/-- C2: for every retry ceiling N ≥ 1, if the verifier's first invocation
succeeds and its output parses to failed-count 0, the resolution loop
performs exactly 1 verifier call and 0 remediator calls, converges, and
returns failed count 0. -/
theorem converged_on_first_attempt (N : Nat)
    (verifier : Nat → AgentPromptResponse)
    (parse : String → Option (List TestResult))
    (remediator : Nat → Nat → Bool) (res : List TestResult) (p : Nat)
    (hN : 1 ≤ N)
    (hsuccess : (verifier 0).success = true)
    (hparse : parse_test_results parse (verifier 0).output = (res, p, 0)) :
    run_tests_with_resolution verifier parse remediator N =
      ⟨res, p, 0, some (verifier 0), LoopStatus.converged, 1, 0⟩ :=
  firstAttemptConverges N verifier parse remediator res p hN hsuccess hparse

/-- C2 witness: the loop with ceiling 4, a verifier whose single response
parses to one passing test, and an always-failing remediator. -/
theorem converged_on_first_attempt_witness :
    run_tests_with_resolution (fun _ => ⟨true, "out"⟩)
      (fun _ => some [⟨"t1", true, none⟩]) (fun _ _ => false) 4 =
      ⟨[⟨"t1", true, none⟩], 1, 0, some ⟨true, "out"⟩,
        LoopStatus.converged, 1, 0⟩ :=
  converged_on_first_attempt 4 (fun _ => ⟨true, "out"⟩)
    (fun _ => some [⟨"t1", true, none⟩]) (fun _ _ => false)
    [⟨"t1", true, none⟩] 1 (by decide) (by decide) (by decide)

/-- C1: if the verifier always returns the same single failing outcome and
the remediator always fails, the resolution loop performs exactly 1 verifier
call (not N) and exits Exhausted: the zero-resolved remediation pass stops
the loop immediately.  Only the first verifier response is constrained, so
the conclusion shows no further verifier call can influence the result. -/
theorem exhausted_when_nothing_resolved (N : Nat)
    (verifier : Nat → AgentPromptResponse)
    (parse : String → Option (List TestResult))
    (remediator : Nat → Nat → Bool) (o : String) (t : TestResult)
    (hN : 1 ≤ N)
    (hv : verifier 0 = ⟨true, o⟩)
    (hp : parse o = some [t])
    (ht : t.passed = false)
    (hr : ∀ i j, remediator i j = false) :
    (run_tests_with_resolution verifier parse remediator N).verifier_calls = 1 ∧
    (run_tests_with_resolution verifier parse remediator N).status =
      LoopStatus.exhausted := by
  obtain ⟨m, rfl⟩ : ∃ m, N = m + 1 := ⟨N - 1, by omega⟩
  cases m with
  | zero =>
      simp [run_tests_with_resolution, runTestsGo, hv, parse_test_results,
        hp, ht]
  | succ m1 =>
      have hne : (1 : Nat) ≠ m1 + 1 + 1 := by omega
      simp [run_tests_with_resolution, runTestsGo, hv, parse_test_results,
        hp, ht, hne, resolve_failed_tests, resolveGo, hr]

/-- C1 witness: ceiling 4, constant verifier with one failing outcome,
always-failing remediator: exactly 1 verifier call, Exhausted. -/
theorem exhausted_when_nothing_resolved_witness :
    (run_tests_with_resolution (fun _ => ⟨true, "out"⟩)
      (fun _ => some [⟨"t1", false, some "boom"⟩]) (fun _ _ => false)
      4).verifier_calls = 1 ∧
    (run_tests_with_resolution (fun _ => ⟨true, "out"⟩)
      (fun _ => some [⟨"t1", false, some "boom"⟩]) (fun _ _ => false)
      4).status = LoopStatus.exhausted :=
  exhausted_when_nothing_resolved 4 (fun _ => ⟨true, "out"⟩)
    (fun _ => some [⟨"t1", false, some "boom"⟩]) (fun _ _ => false)
    "out" ⟨"t1", false, some "boom"⟩ (by decide) rfl rfl rfl
    (fun _ _ => rfl)

/-- C5: a parse failure of the verifier's raw output degrades to an empty
outcome list with 0 passed and 0 failed; the loop does not abort (no
Aborted transition — it converges on the empty result set), performs no
remediation, and counts nothing as resolved. -/
theorem parse_failure_degrades (N : Nat)
    (verifier : Nat → AgentPromptResponse)
    (parse : String → Option (List TestResult))
    (remediator : Nat → Nat → Bool)
    (hN : 1 ≤ N)
    (hsuccess : (verifier 0).success = true)
    (hparse : parse (verifier 0).output = none) :
    parse_test_results parse (verifier 0).output = ([], 0, 0) ∧
    run_tests_with_resolution verifier parse remediator N =
      ⟨[], 0, 0, some (verifier 0), LoopStatus.converged, 1, 0⟩ ∧
    (run_tests_with_resolution verifier parse remediator N).status ≠
      LoopStatus.aborted := by
  have hptr : parse_test_results parse (verifier 0).output = ([], 0, 0) := by
    simp [parse_test_results, hparse]
  have hrun := firstAttemptConverges N verifier parse remediator [] 0
    hN hsuccess hptr
  exact ⟨hptr, hrun, by rw [hrun]; simp⟩

/-- C6: for every identifier whose padded first four characters form a valid
base-16 string of value v, allocate_ports returns the pair
(BACKEND_PORT_START + offset, FRONTEND_PORT_START + offset) with
offset = v mod MAX_CONCURRENT_WORKFLOWS, the offset lies in [0, 15), and the
backend and frontend ports carry the same offset from their bases.
Determinism over the identifier is inherent: `allocate_ports` is a pure
function of `adw_id`. -/
theorem allocate_ports_spec (adw_id : String) (v : Int)
    (h : int_base16 (hexPart adw_id) = some v) :
    allocate_ports adw_id =
      some ⟨BACKEND_PORT_START + (v % (MAX_CONCURRENT_WORKFLOWS : Int)).toNat,
            FRONTEND_PORT_START +
              (v % (MAX_CONCURRENT_WORKFLOWS : Int)).toNat⟩ ∧
    (v % (MAX_CONCURRENT_WORKFLOWS : Int)).toNat < MAX_CONCURRENT_WORKFLOWS ∧
    ∀ p : PortAllocation, allocate_ports adw_id = some p →
      p.backend - BACKEND_PORT_START = p.frontend - FRONTEND_PORT_START := by
  have hC : ((MAX_CONCURRENT_WORKFLOWS : Nat) : Int) = 15 := by
    norm_num [MAX_CONCURRENT_WORKFLOWS]
  have hlt : (v % (MAX_CONCURRENT_WORKFLOWS : Int)).toNat <
      MAX_CONCURRENT_WORKFLOWS := by
    rw [hC]
    have h0 : (0 : Int) ≤ v % 15 := Int.emod_nonneg v (by norm_num)
    have h1 : v % 15 < 15 := Int.emod_lt_of_pos v (by norm_num)
    simp only [MAX_CONCURRENT_WORKFLOWS]
    omega
  have heq : allocate_ports adw_id =
      some ⟨BACKEND_PORT_START + (v % (MAX_CONCURRENT_WORKFLOWS : Int)).toNat,
            FRONTEND_PORT_START +
              (v % (MAX_CONCURRENT_WORKFLOWS : Int)).toNat⟩ := by
    simp [allocate_ports, h]
  refine ⟨heq, hlt, ?_⟩
  intro p hp
  rw [heq] at hp
  obtain rfl : p = ⟨BACKEND_PORT_START +
      (v % (MAX_CONCURRENT_WORKFLOWS : Int)).toNat,
      FRONTEND_PORT_START + (v % (MAX_CONCURRENT_WORKFLOWS : Int)).toNat⟩ :=
    (Option.some.injEq _ _).mp hp.symm
  simp

/-- C6 witness: the identifier "abc12345" has hex prefix "abc1", value
43969, offset 4, ports (3104, 3204). -/
theorem allocate_ports_spec_witness :
    int_base16 (hexPart "abc12345") = some 43969 ∧
    (allocate_ports "abc12345" =
      some ⟨BACKEND_PORT_START +
              ((43969 : Int) % (MAX_CONCURRENT_WORKFLOWS : Int)).toNat,
            FRONTEND_PORT_START +
              ((43969 : Int) % (MAX_CONCURRENT_WORKFLOWS : Int)).toNat⟩ ∧
    ((43969 : Int) % (MAX_CONCURRENT_WORKFLOWS : Int)).toNat <
      MAX_CONCURRENT_WORKFLOWS ∧
    ∀ p : PortAllocation, allocate_ports "abc12345" = some p →
      p.backend - BACKEND_PORT_START = p.frontend - FRONTEND_PORT_START) :=
  ⟨by decide, allocate_ports_spec "abc12345" 43969 (by decide)⟩

/-- C7: an identifier whose padded first four characters are not a valid
base-16 string makes allocate_ports fail (no silent default allocation). -/
theorem allocate_ports_invalid_identifier (adw_id : String)
    (h : int_base16 (hexPart adw_id) = none) :
    allocate_ports adw_id = none := by
  simp [allocate_ports, h]

/-- C7 witness: "zzzz" is not base 16; allocation fails. -/
theorem allocate_ports_invalid_identifier_witness :
    int_base16 (hexPart "zzzz") = none ∧ allocate_ports "zzzz" = none :=
  ⟨by decide, allocate_ports_invalid_identifier "zzzz" (by decide)⟩

/-- C8: worktree creation is idempotent: if a create call returned
successfully with state s1, path p and allocation ports, the second call
(seeing the path Present) returns the identical path and a freshly
recomputed identical allocation and leaves the state — hence every
side-effect counter — untouched, so each underlying side effect happens at
most once across the two calls. -/
theorem create_worktree_idempotent (vcsOk npmOk envExists : Bool)
    (adw_id branch : String) (s s1 : WorktreeState) (p : String)
    (ports : PortAllocation)
    (h : create_worktree vcsOk npmOk envExists adw_id branch s =
      (s1, Except.ok (p, ports))) :
    create_worktree vcsOk npmOk envExists adw_id branch s1 =
      (s1, Except.ok (p, ports)) := by
  simp only [create_worktree] at h ⊢
  by_cases hmem : adw_id ∈ s.present
  · rw [if_pos hmem] at h
    cases hap : allocate_ports adw_id with
    | none => rw [hap] at h; simp at h
    | some q =>
        rw [hap] at h
        obtain ⟨rfl, h2⟩ := Prod.mk.injEq .. |>.mp h
        obtain ⟨rfl, rfl⟩ := Prod.mk.injEq .. |>.mp (Except.ok.injEq .. |>.mp h2)
        rw [if_pos hmem]
  · rw [if_neg hmem] at h
    cases hvcs : vcsOk with
    | false => rw [hvcs] at h; simp at h
    | true =>
        rw [hvcs] at h
        simp only [Bool.true_eq_false, if_false] at h
        cases hap : allocate_ports adw_id with
        | none => rw [hap] at h; simp at h
        | some q =>
            rw [hap] at h
            cases hnpm : npmOk with
            | false => rw [hnpm] at h; simp at h
            | true =>
                rw [hnpm] at h
                simp only [Bool.true_eq_false, if_false] at h
                obtain ⟨hs1, h2⟩ := Prod.mk.injEq .. |>.mp h
                obtain ⟨rfl, rfl⟩ :=
                  Prod.mk.injEq .. |>.mp (Except.ok.injEq .. |>.mp h2)
                have hmem1 : adw_id ∈ s1.present := by
                  rw [← hs1]; exact List.mem_cons_self _ _
                rw [if_pos hmem1]

/-- C8 witness: creating the worktree "ab" twice from the empty state: the
first call performs each side effect once; the second call returns the same
path and ports and leaves the state unchanged. -/
theorem create_worktree_idempotent_witness :
    create_worktree true true true "ab" "br" ⟨[], 0, 0, 0, 0⟩ =
      (⟨["ab"], 1, 1, 1, 1⟩, Except.ok ("trees/ab", ⟨3106, 3206⟩)) ∧
    create_worktree true true true "ab" "br" ⟨["ab"], 1, 1, 1, 1⟩ =
      (⟨["ab"], 1, 1, 1, 1⟩, Except.ok ("trees/ab", ⟨3106, 3206⟩)) :=
  ⟨rfl,
    create_worktree_idempotent true true true "ab" "br" ⟨[], 0, 0, 0, 0⟩
      ⟨["ab"], 1, 1, 1, 1⟩ "trees/ab" ⟨3106, 3206⟩ rfl⟩

/-- Shared helper: closed form of the cleanup sweep: the cleaned counter
grows by the number of stale directories whose removal succeeds, and the
attempted list extends by every stale directory, in order, regardless of
earlier failures. -/
theorem cleanupSweep_spec (removeOk : String → Bool) (maxAge : Nat) :
    ∀ (entries : List WtEntry) (cleaned : Nat) (attempted : List String),
      cleanupSweep removeOk maxAge entries cleaned attempted =
        (cleaned + List.countP
            (fun e => e.isDir && decide (maxAge < e.ageSeconds) &&
              removeOk e.adw_id) entries,
         attempted ++ (entries.filter
            (fun e => e.isDir && decide (maxAge < e.ageSeconds))).map
            (fun e => e.adw_id))
  | [], cleaned, attempted => by simp [cleanupSweep]
  | e :: rest, cleaned, attempted => by
      have ih := cleanupSweep_spec removeOk maxAge rest
      simp only [cleanupSweep, ih]
      by_cases hdir : e.isDir = false
      · simp [hdir, List.countP_cons, List.filter_cons]
      · have hdir1 : e.isDir = true := by
          revert hdir; cases h : e.isDir <;> simp
        by_cases hage : maxAge < e.ageSeconds
        · by_cases hok : removeOk e.adw_id = true
          · rw [Prod.ext_iff]
            simp [hdir1, hage, hok, List.countP_cons, List.filter_cons,
              List.append_assoc]
            omega
          · have hok1 : removeOk e.adw_id = false := by
              revert hok; cases h : removeOk e.adw_id <;> simp
            rw [Prod.ext_iff]
            simp [hdir1, hage, hok1, List.countP_cons, List.filter_cons,
              List.append_assoc]
        · rw [Prod.ext_iff]
          simp [hdir1, hage, List.countP_cons, List.filter_cons]

/-- C9: cleanup attempts removal of every stale worktree (age strictly above
max_age_hours * 3600 seconds), failures do not abort the sweep, and the
returned count equals the number of successful removals only. -/
theorem cleanup_counts_and_attempts_all (removeOk : String → Bool)
    (max_age_hours : Nat) (entries : List WtEntry) :
    cleanup_stale_worktrees removeOk max_age_hours entries =
      List.countP
        (fun e => e.isDir && decide (max_age_hours * 3600 < e.ageSeconds) &&
          removeOk e.adw_id) entries ∧
    cleanupAttempted removeOk max_age_hours entries =
      (entries.filter
        (fun e => e.isDir && decide (max_age_hours * 3600 < e.ageSeconds))).map
        (fun e => e.adw_id) := by
  have h := cleanupSweep_spec removeOk (max_age_hours * 3600) entries 0 []
  constructor
  · simp [cleanup_stale_worktrees, h]
  · simp [cleanupAttempted, h]

/-- Shared helper: the remediator-call counter of the E2E loop never
decreases below its accumulator. -/
theorem runE2EGo_rcalls_ge (hasFiles : Bool)
    (verifier : Nat → AgentPromptResponse) (eparse : String → Option E2EDict)
    (remediator : Nat → Nat → Bool) (max_attempts : Nat) :
    ∀ (fuel attempt : Nat) (results0 : List E2ETestResult)
      (passed0 failed0 v r : Nat),
      r ≤ (runE2EGo hasFiles verifier eparse remediator max_attempts fuel
        attempt results0 passed0 failed0 v r).remediator_calls := by
  intro fuel
  induction fuel with
  | zero =>
      intro attempt results0 passed0 failed0 v r
      simp [runE2EGo]
  | succ n ih =>
      intro attempt results0 passed0 failed0 v r
      simp only [runE2EGo]
      split
      · simp
      · split
        · simp
        · split
          · simp
          · split
            · exact le_trans (Nat.le_add_right _ _) (ih _ _ _ _ _ _)
            · simp

/-- Shared helper: the E2E loop never exits through the Aborted branch —
`runE2EGo` has no such branch. -/
theorem runE2EGo_ne_aborted (hasFiles : Bool)
    (verifier : Nat → AgentPromptResponse) (eparse : String → Option E2EDict)
    (remediator : Nat → Nat → Bool) (max_attempts : Nat) :
    ∀ (fuel attempt : Nat) (results0 : List E2ETestResult)
      (passed0 failed0 v r : Nat),
      (runE2EGo hasFiles verifier eparse remediator max_attempts fuel
        attempt results0 passed0 failed0 v r).status ≠ LoopStatus.aborted := by
  intro fuel
  induction fuel with
  | zero =>
      intro attempt results0 passed0 failed0 v r
      simp [runE2EGo]
  | succ n ih =>
      intro attempt results0 passed0 failed0 v r
      simp only [runE2EGo]
      split
      · simp
      · split
        · simp
        · split
          · simp
          · split
            · exact ih _ _ _ _ _ _
            · simp

/-- C3 counterexample: in the end-to-end instantiation, an
infrastructure-level verifier failure does not stop the loop: with ceiling 2
and an always-succeeding remediator, the loop performs 2 verifier calls and
1 remediator call, contradicting "stops immediately with no further verifier
calls and zero remediator invocations". -/
theorem e2e_infra_failure_retries_counterexample :
    (run_e2e_tests_with_resolution true (fun _ => ⟨false, "boom"⟩)
      (fun _ => none) (fun _ _ => true) 2).verifier_calls = 2 ∧
    (run_e2e_tests_with_resolution true (fun _ => ⟨false, "boom"⟩)
      (fun _ => none) (fun _ _ => true) 2).remediator_calls = 1 := by
  decide

/-- C3 amended: only the primary-tier loop aborts on an infrastructure-level
verifier failure — it stops immediately after that single verifier call,
invokes the remediator zero times and reports the raw response.  The
end-to-end tier instead converts the failure into one synthetic failed
outcome carrying the raw error, never takes an Aborted transition, and (for
a ceiling of at least 2) invokes the remediator at least once on the
synthetic outcome. -/
theorem infra_failure_primary_aborts_e2e_remediates (N M : Nat)
    (verifier ev : Nat → AgentPromptResponse)
    (parse : String → Option (List TestResult))
    (eparse : String → Option E2EDict) (remediator er : Nat → Nat → Bool)
    (hN : 1 ≤ N) (hM : 2 ≤ M)
    (hv : (verifier 0).success = false)
    (he : (ev 0).success = false) :
    run_tests_with_resolution verifier parse remediator N =
      ⟨[], 0, 0, some (verifier 0), LoopStatus.aborted, 1, 0⟩ ∧
    run_e2e_tests true ev eparse 0 =
      ([⟨"e2e_suite", "failed", "e2e/", [],
         some ("Test execution error: " ++ (ev 0).output)⟩], 1) ∧
    (run_e2e_tests_with_resolution true ev eparse er M).status ≠
      LoopStatus.aborted ∧
    (run_e2e_tests_with_resolution true ev eparse er M).remediator_calls ≥ 1 := by
  obtain ⟨m, rfl⟩ : ∃ m, N = m + 1 := ⟨N - 1, by omega⟩
  obtain ⟨f, hf1, rfl⟩ : ∃ f, 1 ≤ f ∧ M = f + 1 := ⟨M - 1, by omega, by omega⟩
  have hstep : run_e2e_tests true ev eparse 0 =
      ([⟨"e2e_suite", "failed", "e2e/", [],
         some ("Test execution error: " ++ (ev 0).output)⟩], 1) := by
    simp [run_e2e_tests, he]
  refine ⟨?_, hstep, ?_, ?_⟩
  · simp [run_tests_with_resolution, runTestsGo, hv]
  · exact runE2EGo_ne_aborted true ev eparse er (f + 1) (f + 1) 0 [] 0 0 0 0
  · have hne : (1 : Nat) ≠ f + 1 := by omega
    show 1 ≤ (runE2EGo true ev eparse er (f + 1) (f + 1) 0 [] 0 0 0
      0).remediator_calls
    simp only [runE2EGo]
    simp only [hstep, E2ETestResult.passed]
    simp only [resolve_failed_tests, resolveGo]
    simp [hne]
    split
    · exact runE2EGo_rcalls_ge true ev eparse er (f + 1) f 1 _ 0 1 1 1
    · simp

/-- C3 amended witness: concrete infra-failing verifiers at ceilings 4 and
2. -/
theorem infra_failure_primary_aborts_e2e_remediates_witness :
    run_tests_with_resolution (fun _ => ⟨false, "err"⟩) (fun _ => none)
      (fun _ _ => false) 4 =
      ⟨[], 0, 0, some ⟨false, "err"⟩, LoopStatus.aborted, 1, 0⟩ ∧
    run_e2e_tests true (fun _ => ⟨false, "boom"⟩) (fun _ => none) 0 =
      ([⟨"e2e_suite", "failed", "e2e/", [],
         some ("Test execution error: " ++ "boom")⟩], 1) ∧
    (run_e2e_tests_with_resolution true (fun _ => ⟨false, "boom"⟩)
      (fun _ => none) (fun _ _ => false) 2).status ≠ LoopStatus.aborted ∧
    (run_e2e_tests_with_resolution true (fun _ => ⟨false, "boom"⟩)
      (fun _ => none) (fun _ _ => false) 2).remediator_calls ≥ 1 :=
  infra_failure_primary_aborts_e2e_remediates 4 2 (fun _ => ⟨false, "err"⟩)
    (fun _ => ⟨false, "boom"⟩) (fun _ => none) (fun _ => none)
    (fun _ _ => false) (fun _ _ => false) (by decide) (by decide) rfl rfl

/-- Shared helper: an infrastructure failure of the first verifier call
makes the primary loop return empty results, zero counts and the raw
response, through the Aborted branch, after exactly one verifier call. -/
theorem firstCallAborts (N : Nat) (verifier : Nat → AgentPromptResponse)
    (parse : String → Option (List TestResult))
    (remediator : Nat → Nat → Bool)
    (hN : 1 ≤ N) (hv : (verifier 0).success = false) :
    run_tests_with_resolution verifier parse remediator N =
      ⟨[], 0, 0, some (verifier 0), LoopStatus.aborted, 1, 0⟩ := by
  obtain ⟨m, rfl⟩ : ∃ m, N = m + 1 := ⟨N - 1, by omega⟩
  simp [run_tests_with_resolution, runTestsGo, hv]

/-- Shared helper: when the first E2E verifier call succeeds and parses to a
dictionary whose status is "passed", the E2E loop converges after one
verifier call and no remediation. -/
theorem e2eFirstAttemptConverges (M : Nat)
    (everifier : Nat → AgentPromptResponse)
    (eparse : String → Option E2EDict) (eremediator : Nat → Nat → Bool)
    (d : E2EDict)
    (hM : 1 ≤ M) (he : (everifier 0).success = true)
    (hd : eparse (everifier 0).output = some d)
    (hs : d.status = some "passed") :
    run_e2e_tests_with_resolution true everifier eparse eremediator M =
      ⟨[⟨d.test_name.getD "e2e_suite", "passed", d.test_path.getD "e2e/",
         d.screenshots.getD [], d.error⟩], 1, 0, LoopStatus.converged,
        1, 0⟩ := by
  obtain ⟨f, rfl⟩ : ∃ f, M = f + 1 := ⟨M - 1, by omega⟩
  have hstep : run_e2e_tests true everifier eparse 0 =
      ([⟨d.test_name.getD "e2e_suite", "passed", d.test_path.getD "e2e/",
         d.screenshots.getD [], d.error⟩], 1) := by
    simp [run_e2e_tests, he, hd, hs]
  show runE2EGo true everifier eparse eremediator (f + 1) (f + 1) 0 [] 0 0 0 0 = _
  simp only [runE2EGo]
  simp [hstep, E2ETestResult.passed]

/-- C4: the end-to-end tier is never invoked when the primary tier's loop
terminates with failed-count > 0: the E2E loop is skipped and zero E2E
verifier calls and zero E2E remediator calls occur. -/
theorem e2e_skipped_on_primary_failures
    (pverifier everifier : Nat → AgentPromptResponse)
    (pparse : String → Option (List TestResult))
    (eparse : String → Option E2EDict)
    (premediator eremediator : Nat → Nat → Bool)
    (hasFiles skip_e2e : Bool)
    (h : (main_test_phase pverifier pparse premediator hasFiles everifier
      eparse eremediator skip_e2e).primary.failed_count > 0) :
    (main_test_phase pverifier pparse premediator hasFiles everifier eparse
      eremediator skip_e2e).e2e = none ∧
    (main_test_phase pverifier pparse premediator hasFiles everifier eparse
      eremediator skip_e2e).e2eVerifierCalls = 0 ∧
    (main_test_phase pverifier pparse premediator hasFiles everifier eparse
      eremediator skip_e2e).e2eRemediatorCalls = 0 := by
  simp only [main_test_phase] at h ⊢
  simp only [MainOutcome.e2eVerifierCalls, MainOutcome.e2eRemediatorCalls]
  simp [h]

/-- C4 witness: a primary tier that exhausts with one remaining failure;
the E2E tier is skipped. -/
theorem e2e_skipped_on_primary_failures_witness :
    (main_test_phase (fun _ => ⟨true, "o"⟩)
      (fun _ => some [⟨"t1", false, none⟩]) (fun _ _ => false) true
      (fun _ => ⟨true, "eo"⟩) (fun _ => none) (fun _ _ => false)
      false).e2e = none ∧
    (main_test_phase (fun _ => ⟨true, "o"⟩)
      (fun _ => some [⟨"t1", false, none⟩]) (fun _ _ => false) true
      (fun _ => ⟨true, "eo"⟩) (fun _ => none) (fun _ _ => false)
      false).e2eVerifierCalls = 0 ∧
    (main_test_phase (fun _ => ⟨true, "o"⟩)
      (fun _ => some [⟨"t1", false, none⟩]) (fun _ _ => false) true
      (fun _ => ⟨true, "eo"⟩) (fun _ => none) (fun _ _ => false)
      false).e2eRemediatorCalls = 0 :=
  e2e_skipped_on_primary_failures (fun _ => ⟨true, "o"⟩)
    (fun _ => ⟨true, "eo"⟩) (fun _ => some [⟨"t1", false, none⟩])
    (fun _ => none) (fun _ _ => false) (fun _ _ => false) true false
    (by decide)

/-- C10: when the very first primary verifier invocation signals an
infrastructure failure, the primary loop returns empty results with
passed_count = 0 and failed_count = 0; since the E2E skip condition only
checks failed_count > 0, the E2E tier is not skipped (it performs a
verifier call), and when the E2E tier passes the process reaches the
exit-code-0 success path despite the aborted primary tier. -/
theorem aborted_primary_reaches_success_exit
    (pverifier everifier : Nat → AgentPromptResponse)
    (pparse : String → Option (List TestResult))
    (eparse : String → Option E2EDict)
    (premediator eremediator : Nat → Nat → Bool) (d : E2EDict)
    (hv : (pverifier 0).success = false)
    (he : (everifier 0).success = true)
    (hd : eparse (everifier 0).output = some d)
    (hs : d.status = some "passed") :
    (main_test_phase pverifier pparse premediator true everifier eparse
      eremediator false).primary =
      ⟨[], 0, 0, some (pverifier 0), LoopStatus.aborted, 1, 0⟩ ∧
    (main_test_phase pverifier pparse premediator true everifier eparse
      eremediator false).e2eVerifierCalls = 1 ∧
    (main_test_phase pverifier pparse premediator true everifier eparse
      eremediator false).exit_code = 0 := by
  have hprim : run_tests_with_resolution pverifier pparse premediator
      MAX_TEST_RETRY_ATTEMPTS =
      ⟨[], 0, 0, some (pverifier 0), LoopStatus.aborted, 1, 0⟩ :=
    firstCallAborts MAX_TEST_RETRY_ATTEMPTS pverifier pparse premediator
      (by decide) hv
  have he2e : run_e2e_tests_with_resolution true everifier eparse
      eremediator MAX_E2E_TEST_RETRY_ATTEMPTS =
      ⟨[⟨d.test_name.getD "e2e_suite", "passed", d.test_path.getD "e2e/",
         d.screenshots.getD [], d.error⟩], 1, 0, LoopStatus.converged,
        1, 0⟩ :=
    e2eFirstAttemptConverges MAX_E2E_TEST_RETRY_ATTEMPTS everifier eparse
      eremediator d (by decide) he hd hs
  simp only [main_test_phase, MainOutcome.e2eVerifierCalls, hprim, he2e]
  simp

/-- C10 witness: concrete aborted primary tier followed by a passing E2E
tier reaching exit code 0. -/
theorem aborted_primary_reaches_success_exit_witness :
    (main_test_phase (fun _ => ⟨false, "err"⟩) (fun _ => none)
      (fun _ _ => false) true (fun _ => ⟨true, "eo"⟩)
      (fun _ => some ⟨none, some "passed", none, none, none⟩)
      (fun _ _ => false) false).primary =
      ⟨[], 0, 0, some ⟨false, "err"⟩, LoopStatus.aborted, 1, 0⟩ ∧
    (main_test_phase (fun _ => ⟨false, "err"⟩) (fun _ => none)
      (fun _ _ => false) true (fun _ => ⟨true, "eo"⟩)
      (fun _ => some ⟨none, some "passed", none, none, none⟩)
      (fun _ _ => false) false).e2eVerifierCalls = 1 ∧
    (main_test_phase (fun _ => ⟨false, "err"⟩) (fun _ => none)
      (fun _ _ => false) true (fun _ => ⟨true, "eo"⟩)
      (fun _ => some ⟨none, some "passed", none, none, none⟩)
      (fun _ _ => false) false).exit_code = 0 :=
  aborted_primary_reaches_success_exit (fun _ => ⟨false, "err"⟩)
    (fun _ => ⟨true, "eo"⟩) (fun _ => none)
    (fun _ => some ⟨none, some "passed", none, none, none⟩)
    (fun _ _ => false) (fun _ _ => false)
    ⟨none, some "passed", none, none, none⟩ rfl rfl rfl rfl

/-- C5 witness: ceiling 4, successful verifier, parser that always fails. -/
theorem parse_failure_degrades_witness :
    parse_test_results (fun _ => none)
      ((fun _ : Nat => AgentPromptResponse.mk true "not json") 0).output =
      ([], 0, 0) ∧
    run_tests_with_resolution (fun _ => ⟨true, "not json"⟩) (fun _ => none)
      (fun _ _ => false) 4 =
      ⟨[], 0, 0, some ⟨true, "not json"⟩, LoopStatus.converged, 1, 0⟩ ∧
    (run_tests_with_resolution (fun _ => ⟨true, "not json"⟩) (fun _ => none)
      (fun _ _ => false) 4).status ≠ LoopStatus.aborted :=
  parse_failure_degrades 4 (fun _ => ⟨true, "not json"⟩) (fun _ => none)
    (fun _ _ => false) (by decide) rfl rfl

end Adws
